import Mathlib

/-!
Shallow embedding of the request-orchestration layer of the movie-search
application: the search orchestrator hook (useDebouncedSearch.ts), the
detail-fetch hook and the module-level movie-details cache
(useMovieCache.ts / useMovieDetails.ts), and the debounce scheduling that
the orchestrator delegates to lodash's trailing-edge debounce.

Asynchronous completions are modelled as explicit events on an explicit
state: issuing a request records a per-call cancellation-token identifier
(the AbortController identity of the source), and a completion event
carries the identifier of the call it belongs to, so that the source's
`abortControllerRef.current === abortController` guard is the comparison
`abortCurrent = some id` here.  Machine integers do not occur; JavaScript
`parseInt(·, 10)` is embedded with `none` standing for NaN.
-/

/-- A search summary record (interface IMovie of movie.types.ts). -/
structure IMovie where
  imdbID : String
  Title : String
  Year : String
  Type_ : String
  Poster : String
deriving Repr, DecidableEq

/-- One entry of the Ratings array of IMovieDetails. -/
structure Rating where
  Source : String
  Value : String
deriving Repr, DecidableEq

/-- A detail record (interface IMovieDetails of movie.types.ts).
`Error` is the optional failure message of the remote body. -/
structure IMovieDetails where
  imdbID : String
  Title : String
  Year : String
  Type_ : String
  Poster : String
  Rated : String
  Released : String
  Runtime : String
  Genre : String
  Director : String
  Writer : String
  Actors : String
  Plot : String
  Language : String
  Country : String
  Awards : String
  Ratings : List Rating
  Metascore : String
  imdbRating : String
  imdbVotes : String
  DVD : String
  BoxOffice : String
  Production : String
  Website : String
  Response : String
  Error : Option String
deriving Repr, DecidableEq

/-- A search response body (interface IMovieSearchResponse of
movie.types.ts).  `Search` and `Error` are optional because the remote
omits them on failure bodies, and the source guards every access
(`response.Search?.length`, `response.Search || []`, `response.Error`). -/
structure IMovieSearchResponse where
  Search : Option (List IMovie)
  totalResults : String
  Response : String
  Error : Option String
deriving Repr, DecidableEq

/-- Accumulate a list of decimal digit characters into a Nat. -/
def digitsToNat (ds : List Char) : Nat :=
  ds.foldl (fun a c => a * 10 + (c.toNat - 48)) 0

/-- Parse the leading run of decimal digits after an optional sign;
`none` when there is no digit (JavaScript parseInt returning NaN). -/
def parseDigits (cs : List Char) (sign : Int) : Option Int :=
  let ds := cs.takeWhile Char.isDigit
  if ds.isEmpty then none else some (sign * (digitsToNat ds : Int))

/-- JavaScript `s.trim()`: drop whitespace from both ends. -/
def jsTrim (s : String) : String :=
  ⟨((s.data.dropWhile Char.isWhitespace).reverse.dropWhile
      Char.isWhitespace).reverse⟩

/-- JavaScript `parseInt(s, 10)`: skip leading whitespace, optional sign,
then the longest run of decimal digits; NaN (here `none`) if no digit. -/
def parseInt10 (s : String) : Option Int :=
  let cs := s.data.dropWhile Char.isWhitespace
  match cs with
  | '-' :: r => parseDigits r (-1)
  | '+' :: r => parseDigits r 1
  | _ => parseDigits cs 1

/-! ## Result Cache (useMovieCache.ts)

The source keeps one module-level `movieDetailsCache : Record<string,
IMovieDetails>`; it is embedded as a total map from keys to optional
records.  `getFromCache` performs no assignment or delete in the source,
so its embedding returns the looked-up value together with the untouched
store. -/

/-- The movie-details store: movie id to cached record, `none` = absent. -/
def MovieCache : Type := String → Option IMovieDetails

/-- The cache with no entries (initial `{}` object). -/
def emptyCache : MovieCache := fun _ => none

/-- `getFromCache(movieId)`: `movieDetailsCache[movieId] || null`; a read
only, so the store component of the result is the input store. -/
def getFromCache (c : MovieCache) (movieId : String) :
    Option IMovieDetails × MovieCache :=
  (c movieId, c)

/-- `addToCache(movieId, details)`: `movieDetailsCache[movieId] = details`. -/
def addToCache (c : MovieCache) (movieId : String) (details : IMovieDetails) :
    MovieCache :=
  fun k => if k = movieId then some details else c k

/-- `removeFromCache(movieId)`: `delete movieDetailsCache[movieId]`. -/
def removeFromCache (c : MovieCache) (movieId : String) : MovieCache :=
  fun k => if k = movieId then none else c k

/-- `clearCache()`: delete every key of the store. -/
def clearCache (_ : MovieCache) : MovieCache :=
  fun _ => none

/-! ## Detail Fetcher (useMovieDetails.ts)

Hook state of useMovieDetails plus the bookkeeping that makes the
asynchronous behaviour explicit: `abortCurrent` is the identity of the
AbortController held in `abortControllerRef.current`, `abortedIds` logs
every `.abort()` call, `inFlight` the issued and not yet completed
requests, `networkCalls` every `omdbService.getDetails` invocation. -/

structure DetailsState where
  details : Option IMovieDetails
  loading : Bool
  error : Option String
  abortCurrent : Option Nat
  nextId : Nat
  abortedIds : List Nat
  inFlight : List (Nat × String)
  networkCalls : List String
deriving Repr, DecidableEq

/-- The hook state before any fetch. -/
def initialDetailsState : DetailsState :=
  { details := none, loading := false, error := none, abortCurrent := none,
    nextId := 0, abortedIds := [], inFlight := [], networkCalls := [] }

/-- `fetchDetails(id)` up to its `await`: early return on empty id, abort
of the previous controller, fresh controller, loading/error reset, and
the unconditional `omdbService.getDetails(id, signal)` network call.  The
source never consults the movie-details cache here: `getFromCache` is
destructured from `useMovieCache()` but not called. -/
def fetchDetails (s : DetailsState) (id : String) : DetailsState :=
  if id = "" then s
  else
    let s1 :=
      match s.abortCurrent with
      | some a => { s with abortedIds := a :: s.abortedIds }
      | none => s
    { s1 with
      abortCurrent := some s1.nextId
      nextId := s1.nextId + 1
      loading := true
      error := none
      inFlight := (s1.nextId, id) :: s1.inFlight
      networkCalls := id :: s1.networkCalls }

/-- A concrete detail record used for concrete evaluations. -/
def sampleDetails : IMovieDetails :=
  { imdbID := "tt0372784", Title := "Batman Begins", Year := "2005",
    Type_ := "movie", Poster := "N/A", Rated := "PG-13",
    Released := "15 Jun 2005", Runtime := "140 min", Genre := "Action",
    Director := "Christopher Nolan", Writer := "Bob Kane",
    Actors := "Christian Bale", Plot := "Origins.", Language := "English",
    Country := "USA", Awards := "None",
    Ratings := [{ Source := "Internet Movie Database", Value := "8.2/10" }],
    Metascore := "70", imdbRating := "8.2", imdbVotes := "1000000",
    DVD := "18 Oct 2005", BoxOffice := "$206,863,479",
    Production := "Warner Bros.", Website := "N/A",
    Response := "True", Error := none }

/-- A cache already holding the record for key tt0372784. -/
def cacheWithBatman : MovieCache :=
  addToCache emptyCache "tt0372784" sampleDetails

/-! ## Search Orchestrator (useDebouncedSearch.ts)

Hook state of useDebouncedSearch plus explicit asynchrony bookkeeping.
`pendingDebounce` is the single slot of the lodash-debounced
`debouncedSearchFn`: the last arguments of a scheduled, not yet fired,
trailing-edge invocation (timing is studied separately below). -/

/-- One issued search request: the AbortController identity created for
it and the `searchQuery`/`pageNum` arguments captured by its closure. -/
structure Req where
  id : Nat
  query : String
  page : Nat
deriving Repr, DecidableEq

structure SearchState where
  query : String
  results : Option IMovieSearchResponse
  loading : Bool
  error : Option String
  page : Nat
  hasMore : Bool
  abortCurrent : Option Nat
  isInitialLoad : Bool
  nextId : Nat
  abortedIds : List Nat
  inFlight : List Req
  pendingDebounce : Option String
  networkCalls : List (String × Nat)
deriving Repr, DecidableEq

/-- Hook state at mount, after the first effect run with query "". -/
def initialSearchState : SearchState :=
  { query := "", results := none, loading := false, error := none,
    page := 1, hasMore := false, abortCurrent := none, isInitialLoad := true,
    nextId := 0, abortedIds := [], inFlight := [], pendingDebounce := none,
    networkCalls := [] }

/-- `if (abortControllerRef.current) abortControllerRef.current.abort()`:
log the abort of the currently held controller; the ref is not cleared. -/
def abortOutstanding (s : SearchState) : SearchState :=
  match s.abortCurrent with
  | some a => { s with abortedIds := a :: s.abortedIds }
  | none => s

/-- `searchMovies(searchQuery, pageNum)` up to its `await`: blank-query
early return (clear results, has-more false), else abort of the previous
controller, fresh controller, loading true, error cleared, and the
`omdbService.search(searchQuery, pageNum, signal)` network call. -/
def searchMovies (s : SearchState) (searchQuery : String) (pageNum : Nat) :
    SearchState :=
  if jsTrim searchQuery = "" then
    { s with results := none, hasMore := false }
  else
    let s1 := abortOutstanding s
    { s1 with
      abortCurrent := some s1.nextId
      nextId := s1.nextId + 1
      loading := true
      error := none
      inFlight := ({ id := s1.nextId, query := searchQuery, page := pageNum } : Req) :: s1.inFlight
      networkCalls := (searchQuery, pageNum) :: s1.networkCalls }

/-- The user-facing message of the rate-limit special case (shared by the
`Response:"False"` body branch and the HTTP 429 transport branch). -/
def rateLimitMsg : String := "API rate limit reached. Please try again later."

/-- Message selection of the `response.Response === "False"` branch of
searchMovies: special-case `Error === "Request limit reached!"`, else
`response.Error || 'No results found'` (JavaScript `||`: an absent or
empty Error string falls back to the default). -/
def searchFalseMessage (e : Option String) : String :=
  if e = some "Request limit reached!" then rateLimitMsg
  else
    match e with
    | some msg => if msg = "" then "No results found" else msg
    | none => "No results found"

/-- `!!response.Search?.length && totalResults > (pageNum * 10)` where
`totalResults = parseInt(response.totalResults, 10)`; a NaN comparison is
false. -/
def hasMoreOf (resp : IMovieSearchResponse) (pageNum : Nat) : Bool :=
  !(resp.Search.getD []).isEmpty &&
    (match parseInt10 resp.totalResults with
     | some t => decide ((pageNum : Int) * 10 < t)
     | none => false)

/-- The accumulated summary sequence of a nullable response:
`prev?.Search || []`. -/
def searchListOf : Option IMovieSearchResponse → List IMovie
  | none => []
  | some r => r.Search.getD []

/-- The response-handling block of searchMovies that runs under the
`abortControllerRef.current === abortController` identity check: the
`Response === "False"` branch, the page-1 replacement branch, the page>1
append branch (`{...response, Search: [...prev, ...new]}`), and the
has-more computation. -/
def applyResponse (s : SearchState) (resp : IMovieSearchResponse)
    (pageNum : Nat) : SearchState :=
  if resp.Response = "False" then
    { s with error := some (searchFalseMessage resp.Error),
             results := none, hasMore := false }
  else
    let s1 :=
      if pageNum = 1 then
        { s with results := some resp, isInitialLoad := false }
      else
        let appended : IMovieSearchResponse :=
          { resp with Search := some (searchListOf s.results ++ resp.Search.getD []) }
        { s with results := some appended }
    { s1 with hasMore := hasMoreOf resp pageNum }

/-- Completion event: the request with controller identity `id` resolves
with body `resp`.  Outside the token-identity check only the in-flight
bookkeeping changes; inside it the response block runs and the `finally`
resets loading. -/
def resolveSuccess (s : SearchState) (id : Nat) (resp : IMovieSearchResponse) :
    SearchState :=
  match s.inFlight.find? (fun r => r.id == id) with
  | none => s
  | some req =>
    let s1 := { s with inFlight := s.inFlight.filter (fun r => !(r.id == id)) }
    if s1.abortCurrent = some id then
      let s2 := applyResponse s1 resp req.page
      { s2 with loading := false }
    else s1

/-- A transport failure as the catch block of searchMovies inspects it:
`axios.isCancel(err)`, `axios.isAxiosError(err)`, `err.response?.status`
(`none` = no response), `err.response?.data?.Error`. -/
structure TransportErr where
  isCancel : Bool
  isAxiosError : Bool
  status : Option Nat
  dataError : Option String
deriving Repr, DecidableEq

/-- Generic transport-failure message of searchMovies. -/
def genericSearchMsg : String := "Failed to fetch movies. Please try again."

/-- Status-code classification of the catch block of searchMovies,
reached when `err.response?.data?.Error` is falsy. -/
def searchStatusMessage (err : TransportErr) : String :=
  if err.status = some 401 then
    "API key is invalid or missing. Please contact support."
  else if err.status = some 429 then rateLimitMsg
  else genericSearchMsg

/-- Full message classification of the catch block of searchMovies: a
truthy `err.response?.data?.Error` wins, then the status checks, and a
non-axios error gets the generic message. -/
def searchErrorMessage (err : TransportErr) : String :=
  if err.isAxiosError then
    match err.dataError with
    | some msg => if msg = "" then searchStatusMessage err else msg
    | none => searchStatusMessage err
  else genericSearchMsg

/-- Completion event: the request with controller identity `id` rejects
with transport failure `err`.  The catch body runs only under the
token-identity check and `!axios.isCancel(err)`; the `finally` resets
loading under the token-identity check alone. -/
def resolveError (s : SearchState) (id : Nat) (err : TransportErr) :
    SearchState :=
  match s.inFlight.find? (fun r => r.id == id) with
  | none => s
  | some _ =>
    let s1 := { s with inFlight := s.inFlight.filter (fun r => !(r.id == id)) }
    let s2 :=
      if s1.abortCurrent = some id ∧ err.isCancel = false then
        { s1 with error := some (searchErrorMessage err),
                  results := none, hasMore := false }
      else s1
    if s2.abortCurrent = some id then { s2 with loading := false } else s2

/-- `debouncedSearch(searchQuery)`: page 1, has-more false, initial-load
flag set, then `searchMovies(searchQuery, 1)`. -/
def debouncedSearch (s : SearchState) (q : String) : SearchState :=
  searchMovies { s with page := 1, hasMore := false, isInitialLoad := true } q 1

/-- The trailing-edge timer of the lodash-debounced `debouncedSearchFn`
elapses: the pending invocation (if any) runs with its stored argument. -/
def debounceFire (s : SearchState) : SearchState :=
  match s.pendingDebounce with
  | none => s
  | some q => debouncedSearch { s with pendingDebounce := none } q

/-- `setQuery(q)` followed by the re-run of the query effect: the cleanup
of the previous effect aborts the held controller, then the body either
schedules `debouncedSearchFn(query)` (non-empty query) or clears
results/page/has-more and sets the initial-load flag (empty query).  The
empty branch does not touch the debounce slot: the source cancels no
pending timer there. -/
def setQueryEvent (s : SearchState) (q : String) : SearchState :=
  let s1 := abortOutstanding { s with query := q }
  if q ≠ "" then { s1 with pendingDebounce := some q }
  else { s1 with results := none, page := 1, hasMore := false,
                 isInitialLoad := true }

/-- `loadMore()`: guarded by `!loading && hasMore && query &&
!isInitialLoad.current` (JavaScript truthiness: `query` passes whenever
it is non-empty), then `setPage(page + 1)` and
`searchMovies(query, page + 1)`. -/
def loadMore (s : SearchState) : SearchState :=
  if s.loading = false ∧ s.hasMore = true ∧ s.query ≠ "" ∧ s.isInitialLoad = false then
    searchMovies { s with page := s.page + 1 } s.query (s.page + 1)
  else s

/-- The externally visible events of one orchestrator instance. -/
inductive SearchEvent where
  | setQ (q : String)
  | fire
  | ok (id : Nat) (resp : IMovieSearchResponse)
  | fail (id : Nat) (err : TransportErr)
  | more
deriving Repr, DecidableEq

def stepEvent (s : SearchState) : SearchEvent → SearchState
  | .setQ q => setQueryEvent s q
  | .fire => debounceFire s
  | .ok id resp => resolveSuccess s id resp
  | .fail id err => resolveError s id err
  | .more => loadMore s

def runEvents (s : SearchState) (es : List SearchEvent) : SearchState :=
  es.foldl stepEvent s

/-! ## Debounce timing (lodash `debounce(debouncedSearch, delay)`)

`debouncedSearchFn` is a default lodash debounce: trailing-edge only, a
single pending timer slot holding the last call's argument, every call
restarting the timer `delay` milliseconds ahead.  The timed behaviour is
embedded as a small clocked machine: `pending` holds the stored argument
and the absolute deadline; a call at time `now` overwrites both; a timer
whose deadline has been reached fires once with the stored argument. -/

structure DebounceState where
  pending : Option (String × Nat)
deriving Repr, DecidableEq

/-- A call of the debounced function at absolute time `now`: store the
argument and restart the timer to `now + delay`. -/
def debounceCall (delay : Nat) (_ : DebounceState) (q : String) (now : Nat) :
    DebounceState :=
  ⟨some (q, now + delay)⟩

/-- Let the clock reach time `t`: a pending timer whose deadline is at or
before `t` fires (the fired arguments are returned in order). -/
def debounceElapse (d : DebounceState) (t : Nat) :
    DebounceState × List String :=
  match d.pending with
  | some (q, deadline) => if deadline ≤ t then (⟨none⟩, [q]) else (d, [])
  | none => (d, [])

/-- Run a timestamped call sequence from state `d`: before each call the
clock advances to the call's time (firing any due timer), then the call
restarts the timer; after the last call the clock runs to quiescence, so
a still-pending timer fires.  The result is the argument list of every
firing of the debounced `debouncedSearch`, in order. -/
def debounceRunAux (delay : Nat) (d : DebounceState) :
    List (Nat × String) → List String
  | [] =>
    match d.pending with
    | some (q, _) => [q]
    | none => []
  | (t, q) :: rest =>
    let step := debounceElapse d t
    step.2 ++ debounceRunAux delay (debounceCall delay step.1 q t) rest

/-- The firings produced by a timestamped call sequence started with no
timer pending. -/
def debounceRun (delay : Nat) (calls : List (Nat × String)) : List String :=
  debounceRunAux delay ⟨none⟩ calls

/-- Every call arrives within `delay` of the previous one, i.e. inside
the window the previous call (re)opened. -/
def withinWindow (delay : Nat) (calls : List (Nat × String)) : Prop :=
  List.Chain' (fun a b => b.1 < a.1 + delay) calls

/-! ## Concrete fixtures for witnesses and counterexamples -/

/-- A concrete summary record. -/
def sampleMovie : IMovie :=
  { imdbID := "tt0372784", Title := "Batman Begins", Year := "2005",
    Type_ := "movie", Poster := "N/A" }

/-- A successful one-record search body reporting 100 total results. -/
def respBatman : IMovieSearchResponse :=
  { Search := some [sampleMovie], totalResults := "100",
    Response := "True", Error := none }

/-- An orchestrator state with one request (controller 7) in flight. -/
def stateWithInflight : SearchState :=
  { initialSearchState with
    query := "batman", loading := true, abortCurrent := some 7, nextId := 8,
    inFlight := [({ id := 7, query := "batman", page := 1 } : Req)],
    networkCalls := [("batman", 1)] }

/-- The observable state of C1: loading, error, results, has-more. -/
def observable (s : SearchState) :
    Bool × Option String × Option IMovieSearchResponse × Bool :=
  (s.loading, s.error, s.results, s.hasMore)

/-! ## Claim theorems -/

/-- C10: for distinct keys k and k2, addToCache and removeFromCache at k
leave the cached value at k2 unchanged, getFromCache leaves the whole
store untouched, and clearCache empties every key. -/
theorem cache_frame_properties (c : MovieCache) (k k2 : String)
    (v : IMovieDetails) (h : k ≠ k2) :
    (getFromCache (addToCache c k v) k2).1 = (getFromCache c k2).1 ∧
    (getFromCache (removeFromCache c k) k2).1 = (getFromCache c k2).1 ∧
    (getFromCache c k).2 = c ∧
    (∀ k3, (getFromCache (clearCache c) k3).1 = none) := by
  have h2 : k2 ≠ k := Ne.symm h
  refine ⟨?_, ?_, rfl, fun k3 => rfl⟩ <;>
    simp [getFromCache, addToCache, removeFromCache, h2]

/-- Witness for C10 at concrete keys "a" and "b" on the empty cache. -/
theorem cache_frame_properties_witness :
    (getFromCache (addToCache emptyCache "a" sampleDetails) "b").1
      = (getFromCache emptyCache "b").1 ∧
    (getFromCache (removeFromCache emptyCache "a") "b").1
      = (getFromCache emptyCache "b").1 ∧
    (getFromCache emptyCache "a").2 = emptyCache ∧
    (∀ k3, (getFromCache (clearCache emptyCache) k3).1 = none) :=
  cache_frame_properties emptyCache "a" "b" sampleDetails (by decide)

/-- C2 (code defect): with the record for key tt0372784 present in the
cache, fetchDetails for that key still issues a network request and does
not return the cached record — the source destructures getFromCache but
never calls it, although its own doc comments promise cache checking. -/
theorem fetchDetails_ignores_cache :
    (getFromCache cacheWithBatman "tt0372784").1 = some sampleDetails ∧
    (fetchDetails initialDetailsState "tt0372784").networkCalls
      = ["tt0372784"] ∧
    (fetchDetails initialDetailsState "tt0372784").details = none ∧
    (fetchDetails initialDetailsState "tt0372784").loading = true := by
  refine ⟨?_, rfl, rfl, rfl⟩
  simp [cacheWithBatman, getFromCache, addToCache, emptyCache]

/-- C1: a completion (success or transport failure) whose cancellation
token is no longer the current one mutates none of loading, error,
results, has-more. -/
theorem superseded_completion_no_mutation (s : SearchState) (id : Nat)
    (resp : IMovieSearchResponse) (err : TransportErr)
    (h : s.abortCurrent ≠ some id) :
    observable (resolveSuccess s id resp) = observable s ∧
    observable (resolveError s id err) = observable s := by
  constructor
  · unfold resolveSuccess
    cases hf : s.inFlight.find? (fun r => r.id == id) with
    | none => rfl
    | some req => simp [observable, h]
  · unfold resolveError
    cases hf : s.inFlight.find? (fun r => r.id == id) with
    | none => rfl
    | some req => simp [observable, h]

/-- Witness for C1: the §8 scenario — search A (controller 0), then
search B (controller 1) before A resolves; A's late success and a late
transport failure of A both leave the observable state exactly as B set
it. -/
theorem superseded_completion_no_mutation_witness :
    observable (resolveSuccess
        (searchMovies (searchMovies (setQueryEvent initialSearchState "alien")
          "alien" 1) "blade" 1) 0 respBatman)
      = observable (searchMovies (searchMovies
          (setQueryEvent initialSearchState "alien") "alien" 1) "blade" 1) ∧
    observable (resolveError
        (searchMovies (searchMovies (setQueryEvent initialSearchState "alien")
          "alien" 1) "blade" 1) 0
        { isCancel := false, isAxiosError := true, status := some 500,
          dataError := none })
      = observable (searchMovies (searchMovies
          (setQueryEvent initialSearchState "alien") "alien" 1) "blade" 1) :=
  superseded_completion_no_mutation _ 0 respBatman
    { isCancel := false, isAxiosError := true, status := some 500,
      dataError := none } (by decide)

/-- C4: setting the query to the empty string clears the result set,
resets page to 1 and has-more to false, performs no network call, and
aborts the outstanding request's controller. -/
theorem empty_query_clears_and_cancels (s : SearchState) :
    (setQueryEvent s "").results = none ∧
    (setQueryEvent s "").page = 1 ∧
    (setQueryEvent s "").hasMore = false ∧
    (setQueryEvent s "").networkCalls = s.networkCalls ∧
    (∀ id, s.abortCurrent = some id → id ∈ (setQueryEvent s "").abortedIds) := by
  unfold setQueryEvent abortOutstanding
  cases h : s.abortCurrent <;> simp [h]

/-- Witness for C4 on a state with controller 7 in flight: everything is
cleared, no request is issued, and controller 7 is aborted. -/
theorem empty_query_clears_and_cancels_witness :
    (setQueryEvent stateWithInflight "").results = none ∧
    (setQueryEvent stateWithInflight "").page = 1 ∧
    (setQueryEvent stateWithInflight "").hasMore = false ∧
    (setQueryEvent stateWithInflight "").networkCalls
      = stateWithInflight.networkCalls ∧
    7 ∈ (setQueryEvent stateWithInflight "").abortedIds := by
  have h := empty_query_clears_and_cancels stateWithInflight
  exact ⟨h.1, h.2.1, h.2.2.1, h.2.2.2.1, h.2.2.2.2 7 rfl⟩

/-- C6: a successful page>1 completion of the current request appends the
new page to the accumulated sequence in order, keeps the new response's
total-count, and the new length is the sum of the lengths. -/
theorem page_append_accumulates (s : SearchState) (id : Nat) (q : String)
    (p : Nat) (resp : IMovieSearchResponse)
    (hcur : s.abortCurrent = some id)
    (hfl : s.inFlight.find? (fun r => r.id == id)
      = some ({ id := id, query := q, page := p } : Req))
    (hp : 1 < p) (hresp : resp.Response ≠ "False") :
    searchListOf (resolveSuccess s id resp).results
      = searchListOf s.results ++ resp.Search.getD [] ∧
    Option.map IMovieSearchResponse.totalResults
        (resolveSuccess s id resp).results = some resp.totalResults ∧
    (searchListOf (resolveSuccess s id resp).results).length
      = (searchListOf s.results).length + (resp.Search.getD []).length := by
  have hp1 : p ≠ 1 := by omega
  unfold resolveSuccess
  rw [hfl]
  simp [hcur, applyResponse, hresp, hp1, searchListOf]

/-- Witness for C6: resolving page 2 of "batman" on a state holding one
page-1 record appends the new record after the old one. -/
theorem page_append_accumulates_witness :
    searchListOf (resolveSuccess
        ({ stateWithInflight with
           results := some respBatman,
           inFlight := [({ id := 7, query := "batman", page := 2 } : Req)] })
        7 respBatman).results
      = searchListOf (some respBatman : Option IMovieSearchResponse)
          ++ respBatman.Search.getD [] ∧
    Option.map IMovieSearchResponse.totalResults (resolveSuccess
        ({ stateWithInflight with
           results := some respBatman,
           inFlight := [({ id := 7, query := "batman", page := 2 } : Req)] })
        7 respBatman).results = some respBatman.totalResults ∧
    (searchListOf (resolveSuccess
        ({ stateWithInflight with
           results := some respBatman,
           inFlight := [({ id := 7, query := "batman", page := 2 } : Req)] })
        7 respBatman).results).length
      = (searchListOf (some respBatman : Option IMovieSearchResponse)).length
          + (respBatman.Search.getD []).length := by
  have h := page_append_accumulates
    ({ stateWithInflight with
       results := some respBatman,
       inFlight := [({ id := 7, query := "batman", page := 2 } : Req)] })
    7 "batman" 2 respBatman rfl (by decide) (by omega) (by decide)
  exact h

/-- C7: after a successful completion of the current page-p request whose
total-count parses to t, has-more is exactly: the page brought at least
one record AND p * 10 < t. -/
theorem hasMore_formula (s : SearchState) (id : Nat) (q : String) (p : Nat)
    (resp : IMovieSearchResponse) (t : Int)
    (hcur : s.abortCurrent = some id)
    (hfl : s.inFlight.find? (fun r => r.id == id)
      = some ({ id := id, query := q, page := p } : Req))
    (hresp : resp.Response ≠ "False")
    (ht : parseInt10 resp.totalResults = some t) :
    (resolveSuccess s id resp).hasMore
      = (!(resp.Search.getD []).isEmpty && decide ((p : Int) * 10 < t)) := by
  unfold resolveSuccess
  rw [hfl]
  by_cases hp : p = 1 <;>
    simp [hcur, applyResponse, hresp, hp, hasMoreOf, ht]

/-- Witness for C7: one record with total-count 100 at page 1 gives
has-more = true (1 < 100 / 10). -/
theorem hasMore_formula_witness :
    (resolveSuccess stateWithInflight 7 respBatman).hasMore
      = (!(respBatman.Search.getD []).isEmpty
          && decide ((1 : Int) * 10 < 100)) := by
  have h := hasMore_formula stateWithInflight 7 "batman" 1 respBatman 100
    rfl (by decide) (by decide) (by decide)
  exact h

/-- A reachable state whose query is whitespace-only (blank but not
empty) while has-more is still true: search "batman", let the debounce
fire, let page 1 succeed, then set the query to " " before the new
debounce window elapses. -/
def blankQueryState : SearchState :=
  runEvents initialSearchState
    [SearchEvent.setQ "batman", SearchEvent.fire,
     SearchEvent.ok 0 respBatman, SearchEvent.setQ " "]

/-- C8 counterexample: in the reachable state above the query is blank
(trims to empty), yet loadMore is not a no-op — the guard tests only
emptiness, so loadMore increments the page and the inner blank-query
early return then clears the result set. -/
theorem loadMore_blank_counterexample :
    jsTrim blankQueryState.query = "" ∧
    blankQueryState.loading = false ∧
    blankQueryState.hasMore = true ∧
    blankQueryState.isInitialLoad = false ∧
    loadMore blankQueryState ≠ blankQueryState ∧
    (loadMore blankQueryState).page = 2 ∧
    (loadMore blankQueryState).results = none := by
  refine ⟨by decide, by decide, by decide, by decide, ?_, by decide, by decide⟩
  intro h
  have h2 := congrArg SearchState.page h
  revert h2
  decide

/-- C8 amended: each of loading, no has-more, EMPTY query, and pending
initial load is independently a sufficient no-op guard for loadMore; when
every guard passes, loadMore increments the page by exactly one, and
issues the next-page request whenever the query is non-blank (a
whitespace-only query instead falls into the blank-query early return of
searchMovies, clearing results without a request). -/
theorem loadMore_guards (s : SearchState) :
    (s.loading = true → loadMore s = s) ∧
    (s.hasMore = false → loadMore s = s) ∧
    (s.query = "" → loadMore s = s) ∧
    (s.isInitialLoad = true → loadMore s = s) ∧
    (s.loading = false → s.hasMore = true → s.query ≠ "" →
      s.isInitialLoad = false →
      (loadMore s).page = s.page + 1 ∧
      (jsTrim s.query ≠ "" →
        (loadMore s).networkCalls = (s.query, s.page + 1) :: s.networkCalls) ∧
      (jsTrim s.query = "" →
        (loadMore s).results = none ∧
        (loadMore s).networkCalls = s.networkCalls)) := by
  refine ⟨?_, ?_, ?_, ?_, ?_⟩
  · intro h; simp [loadMore, h]
  · intro h; simp [loadMore, h]
  · intro h; simp [loadMore, h]
  · intro h; simp [loadMore, h]
  · intro h1 h2 h3 h4
    rw [loadMore, if_pos ⟨h1, h2, h3, h4⟩]
    refine ⟨?_, ?_, ?_⟩
    · by_cases ht : jsTrim s.query = "" <;>
        cases ha : s.abortCurrent <;>
        simp [searchMovies, ht, abortOutstanding, ha]
    · intro ht
      cases ha : s.abortCurrent <;>
        simp [searchMovies, ht, abortOutstanding, ha]
    · intro ht
      cases ha : s.abortCurrent <;>
        simp [searchMovies, ht, abortOutstanding, ha]

/-- Witness for C8 amended: each guard exercised on a concrete state, and
the all-guards-pass case issues the page-2 request. -/
theorem loadMore_guards_witness :
    (loadMore { stateWithInflight with loading := true }
      = { stateWithInflight with loading := true }) ∧
    (loadMore { stateWithInflight with loading := false, hasMore := false }
      = { stateWithInflight with loading := false, hasMore := false }) ∧
    (loadMore { stateWithInflight with loading := false, query := "" }
      = { stateWithInflight with loading := false, query := "" }) ∧
    (loadMore { stateWithInflight with loading := false, isInitialLoad := true }
      = { stateWithInflight with loading := false, isInitialLoad := true }) ∧
    ((loadMore { stateWithInflight with
        loading := false, hasMore := true, isInitialLoad := false }).page
      = { stateWithInflight with
          loading := false, hasMore := true, isInitialLoad := false }.page + 1 ∧
     (loadMore { stateWithInflight with
        loading := false, hasMore := true, isInitialLoad := false }).networkCalls
      = ("batman", 2) :: stateWithInflight.networkCalls) := by
  refine ⟨?_, ?_, ?_, ?_, ?_, ?_⟩
  · exact (loadMore_guards _).1 rfl
  · exact (loadMore_guards _).2.1 rfl
  · exact (loadMore_guards _).2.2.1 rfl
  · exact (loadMore_guards _).2.2.2.1 rfl
  · exact ((loadMore_guards _).2.2.2.2 rfl rfl (by decide) rfl).1
  · exact ((loadMore_guards _).2.2.2.2 rfl rfl (by decide) rfl).2.1 (by decide)

/-- A state with the request of controller 0 for "batman" page 1 current
and in flight, awaiting its completion. -/
def awaiting401State : SearchState :=
  { initialSearchState with
    query := "batman", loading := true,
    abortCurrent := some 0, nextId := 1,
    inFlight := [({ id := 0, query := "batman", page := 1 } : Req)],
    networkCalls := [("batman", 1)] }

/-- The transport failure of an HTTP 401 whose body carries an Error
field, as the OMDB API actually sends on a bad key. -/
def err401WithBody : TransportErr :=
  { isCancel := false, isAxiosError := true, status := some 401,
    dataError := some "Invalid API key!" }

/-- C3 counterexample: an HTTP 401 transport failure whose response body
carries an Error field does NOT produce the credentials-specific string —
the catch block tests `err.response?.data?.Error` first, so the raw body
message wins. -/
theorem http401_body_counterexample :
    err401WithBody.status = some 401 ∧
    (resolveError awaiting401State 0 err401WithBody).error
      = some "Invalid API key!" ∧
    some "Invalid API key!"
      ≠ some "API key is invalid or missing. Please contact support." := by
  refine ⟨rfl, by decide, by decide⟩

/-- C3 amended: an HTTP 401 transport failure of the current request
yields the credentials-specific message whenever the response body has no
truthy Error field (absent or empty); a truthy body Error field takes
precedence and is surfaced raw.  Failure always clears results, has-more
and loading. -/
theorem http401_credentials_message (s : SearchState) (id : Nat) (req : Req)
    (err : TransportErr)
    (hcur : s.abortCurrent = some id)
    (hfl : s.inFlight.find? (fun r => r.id == id) = some req)
    (hcancel : err.isCancel = false)
    (hax : err.isAxiosError = true)
    (hst : err.status = some 401) :
    ((err.dataError = none ∨ err.dataError = some "") →
      (resolveError s id err).error
        = some "API key is invalid or missing. Please contact support.") ∧
    (∀ msg, err.dataError = some msg → msg ≠ "" →
      (resolveError s id err).error = some msg) ∧
    (resolveError s id err).results = none ∧
    (resolveError s id err).hasMore = false ∧
    (resolveError s id err).loading = false := by
  unfold resolveError
  rw [hfl]
  refine ⟨?_, ?_, ?_, ?_, ?_⟩
  · rintro (hd | hd) <;>
      simp [hcur, hcancel, searchErrorMessage, hax, hd, searchStatusMessage, hst]
  · intro msg hd hne
    simp [hcur, hcancel, searchErrorMessage, hax, hd, hne]
  · simp [hcur, hcancel]
  · simp [hcur, hcancel]
  · simp [hcur, hcancel]

/-- Witness for C3 amended: a clean 401 (no body Error) on the concrete
awaiting state produces the credentials-specific message. -/
theorem http401_credentials_message_witness :
    (resolveError awaiting401State 0
        { isCancel := false, isAxiosError := true, status := some 401,
          dataError := none }).error
      = some "API key is invalid or missing. Please contact support." ∧
    (resolveError awaiting401State 0
        { isCancel := false, isAxiosError := true, status := some 401,
          dataError := none }).loading = false := by
  have h := http401_credentials_message awaiting401State 0
    ({ id := 0, query := "batman", page := 1 } : Req)
    { isCancel := false, isAxiosError := true, status := some 401,
      dataError := none }
    rfl (by decide) rfl rfl rfl
  exact ⟨h.1 (Or.inl rfl), h.2.2.2.2⟩

/-- A remote rate-limit body: `{Response:"False", Error:"Request limit
reached!"}`. -/
def respLimit : IMovieSearchResponse :=
  { Search := none, totalResults := "", Response := "False",
    Error := some "Request limit reached!" }

/-- C9: on a current request completing with `Response:"False"`, the
exact Error string "Request limit reached!" is special-cased into the
rate-limit message; any other body yields the raw non-empty Error string
or the "No results found" default; in every case the result set is
cleared, has-more becomes false (and loading resets). -/
theorem falseResponse_messages (s : SearchState) (id : Nat) (req : Req)
    (resp : IMovieSearchResponse)
    (hcur : s.abortCurrent = some id)
    (hfl : s.inFlight.find? (fun r => r.id == id) = some req)
    (hf : resp.Response = "False") :
    (resp.Error = some "Request limit reached!" →
      (resolveSuccess s id resp).error = some rateLimitMsg) ∧
    (∀ e, resp.Error = some e → e ≠ "Request limit reached!" → e ≠ "" →
      (resolveSuccess s id resp).error = some e) ∧
    ((resp.Error = none ∨ resp.Error = some "") →
      (resolveSuccess s id resp).error = some "No results found") ∧
    (resolveSuccess s id resp).results = none ∧
    (resolveSuccess s id resp).hasMore = false ∧
    (resolveSuccess s id resp).loading = false ∧
    rateLimitMsg ≠ "No results found" := by
  unfold resolveSuccess
  rw [hfl]
  refine ⟨?_, ?_, ?_, ?_, ?_, ?_, by decide⟩
  · intro he
    simp [hcur, applyResponse, hf, searchFalseMessage, he]
  · intro e he hne1 hne2
    simp [hcur, applyResponse, hf, searchFalseMessage, he, hne1, hne2]
  · rintro (he | he) <;>
      simp [hcur, applyResponse, hf, searchFalseMessage, he]
  · simp [hcur, applyResponse, hf]
  · simp [hcur, applyResponse, hf]
  · simp [hcur, applyResponse, hf]

/-- Witness for C9: the rate-limit body on the concrete awaiting state
yields the rate-limit message and clears results and has-more. -/
theorem falseResponse_messages_witness :
    (resolveSuccess awaiting401State 0 respLimit).error = some rateLimitMsg ∧
    (resolveSuccess awaiting401State 0 respLimit).results = none ∧
    (resolveSuccess awaiting401State 0 respLimit).hasMore = false ∧
    (resolveSuccess awaiting401State 0 respLimit).loading = false := by
  have h := falseResponse_messages awaiting401State 0
    ({ id := 0, query := "batman", page := 1 } : Req) respLimit
    rfl (by decide) rfl
  exact ⟨h.1 rfl, h.2.2.2.1, h.2.2.2.2.1, h.2.2.2.2.2.1⟩

/-- The last element of a list of query texts, with a default for the
empty list: the argument the trailing-edge debounce finally fires with. -/
def lastArg (d : String) : List String → String
  | [] => d
  | q :: rest => lastArg q rest

/-- Every call of the sequence arrives strictly within `delay` of the
previous call, i.e. inside the window that call restarted. -/
def withinWindowB (delay : Nat) : List (Nat × String) → Bool
  | [] => true
  | [_] => true
  | a :: b :: rest => decide (b.1 < a.1 + delay) && withinWindowB delay (b :: rest)

/-- With a timer pending for `q0` at deadline `t0 + delay` and every
later call within the running window, no intermediate firing happens and
the single final firing carries the last argument. -/
theorem debounceRunAux_pending (delay : Nat) :
    ∀ (rest : List (Nat × String)) (t0 : Nat) (q0 : String),
      withinWindowB delay ((t0, q0) :: rest) = true →
      debounceRunAux delay ⟨some (q0, t0 + delay)⟩ rest
        = [lastArg q0 (rest.map Prod.snd)]
  | [], _, _, _ => by simp [debounceRunAux, lastArg]
  | (t1, q1) :: rest, t0, q0, h => by
    have hm : t1 < t0 + delay ∧ withinWindowB delay ((t1, q1) :: rest) = true := by
      simpa [withinWindowB] using h
    have ih := debounceRunAux_pending delay rest t1 q1 hm.2
    simp [debounceRunAux, debounceElapse, Nat.not_le.mpr hm.1, debounceCall,
      lastArg, ih]

/-- C5: any non-empty burst of debounced calls all falling within one
(restarting) delay window produces exactly one firing, carrying the last
query text; and each firing of debouncedSearch resets page to 1 and
has-more to false and then issues the page-1 request for its text. -/
theorem debounced_single_search (delay t0 : Nat) (q0 : String)
    (rest : List (Nat × String))
    (hw : withinWindowB delay ((t0, q0) :: rest) = true) :
    debounceRun delay ((t0, q0) :: rest) = [lastArg q0 (rest.map Prod.snd)] ∧
    (∀ s q, s.pendingDebounce = some q → jsTrim q ≠ "" →
      (debounceFire s).page = 1 ∧ (debounceFire s).hasMore = false ∧
      (debounceFire s).networkCalls = (q, 1) :: s.networkCalls) := by
  constructor
  · have h0 : debounceRun delay ((t0, q0) :: rest)
        = debounceRunAux delay ⟨some (q0, t0 + delay)⟩ rest := by
      simp [debounceRun, debounceRunAux, debounceElapse, debounceCall]
    rw [h0]
    exact debounceRunAux_pending delay rest t0 q0 hw
  · intro s q hp ht
    cases ha : s.abortCurrent <;>
      simp [debounceFire, hp, debouncedSearch, searchMovies, ht,
        abortOutstanding, ha]

/-- Witness for C5: three calls at 0, 100 and 250 ms with a 300 ms delay
fire exactly once, with "batman"; the firing resets page and has-more and
issues the page-1 request. -/
theorem debounced_single_search_witness :
    debounceRun 300 [(0, "ba"), (100, "bat"), (250, "batman")] = ["batman"] ∧
    (debounceFire { initialSearchState with
        pendingDebounce := some "batman" }).page = 1 ∧
    (debounceFire { initialSearchState with
        pendingDebounce := some "batman" }).hasMore = false ∧
    (debounceFire { initialSearchState with
        pendingDebounce := some "batman" }).networkCalls = [("batman", 1)] := by
  have h := debounced_single_search 300 0 "ba" [(100, "bat"), (250, "batman")]
    (by decide)
  have h2 := h.2 { initialSearchState with pendingDebounce := some "batman" }
    "batman" rfl (by decide)
  exact ⟨h.1.trans (by decide), h2.1, h2.2.1, h2.2.2⟩
